import Mathlib

/-!
Verification development for the quizz-backend service.

A shallow embedding of the service layer of the repository:
`app/models/schemas.py` (pydantic request validation), `app/core/exceptions.py`
(HTTP error construction), `app/services/gemini_service.py` (explanation and
feedback generation) and `app/services/firestore_service.py` (question bank
access).  External collaborators (the document store and the generative-text
API) enter as explicit parameters describing the outcome of the external call;
their semantics, where not present in the repository, are modelled from the
specification's description of the collaborator.
-/

/-- Python `str.strip()` whitespace class: space, tab, newline, carriage
return, vertical tab and form feed. -/
def isPySpace (c : Char) : Bool :=
  c = ' ' || c = '\t' || c = '\n' || c = '\r' || c = Char.ofNat 11 || c = Char.ofNat 12

/-- Python `s.strip()`: drop leading and trailing whitespace. -/
def pyStrip (s : String) : String :=
  String.mk (((s.data.dropWhile isPySpace).reverse.dropWhile isPySpace).reverse)

/-- `app/models/schemas.py` `Question`: id, question text, answer options,
index of the correct option, optional subject. -/
structure Question where
  id : Int
  question : String
  options : List String
  correct_answer : Int
  subject : Option String
deriving Repr, DecidableEq

/-- The pydantic field constraints on `Question`:
`options: min_items=2`, `correct_answer: ge=0`.  (The other fields carry no
constraint beyond their type.) -/
def Question.isValid (q : Question) : Bool :=
  2 ≤ q.options.length && 0 ≤ q.correct_answer

/-- `app/models/schemas.py` `UserAttempt`: score, total question count, list of
selected-option indices. -/
structure UserAttempt where
  score : Int
  total_questions : Int
  answers : List Int
deriving Repr, DecidableEq

/-- The pydantic field constraints on `UserAttempt`:
`score: ge=0`, `total_questions: gt=0`. -/
def UserAttempt.isValid (u : UserAttempt) : Bool :=
  0 ≤ u.score && 0 < u.total_questions

/-- `app/core/exceptions.py` `HTTPException` as produced by
`create_http_exception`: a status code and the `detail["message"]` text
(the optional `details` dict is not used by any caller in the repository). -/
structure HTTPExc where
  status_code : Nat
  message : String
deriving Repr, DecidableEq

/-- `app/core/exceptions.py` `create_http_exception`. -/
def createHttpException (status_code : Nat) (message : String) : HTTPExc :=
  ⟨status_code, message⟩

/-- Status code of a service outcome: `some code` when the call raised an
HTTP exception, `none` when it returned normally. -/
def statusOf {α : Type} : Except HTTPExc α → Option Nat
  | .error e => some e.status_code
  | .ok _ => none

/-! ## Gemini response structure (`_extract_text_from_response`) -/

/-- One part of a Gemini candidate content; `text` may be absent (`None`). -/
structure GeminiPart where
  text : Option String
deriving Repr, DecidableEq

/-- Content of a Gemini candidate; a falsy (`None` or empty) parts list is
modelled as the empty list. -/
structure GeminiContent where
  parts : List GeminiPart
deriving Repr, DecidableEq

/-- A Gemini candidate; `content` may be absent (`None`). -/
structure GeminiCandidate where
  content : Option GeminiContent
deriving Repr, DecidableEq

/-- A Gemini response; a falsy (`None` or empty) candidate list is modelled as
the empty list.  The response object itself may be `None`, hence callers pass
`Option GeminiResponse`. -/
structure GeminiResponse where
  candidates : List GeminiCandidate
deriving Repr, DecidableEq

/-- `gemini_service.py` `_extract_text_from_response`: walks
response → candidates[0] → content → parts[0] → text, raising a
`GeminiException` (here: `Except.error` with the exception's message) at the
first absent piece, and also when the text is empty after stripping. -/
def extractTextFromResponse : Option GeminiResponse → Except String String
  | none => .error "No se recibió respuesta de Gemini"
  | some r =>
    match r.candidates with
    | [] => .error "No se encontraron candidatos en la respuesta"
    | c :: _ =>
      match c.content with
      | none => .error "El candidato no tiene contenido"
      | some content =>
        match content.parts with
        | [] => .error "El contenido no tiene partes"
        | p :: _ =>
          match p.text with
          | none => .error "El texto generado está vacío"
          | some t => if pyStrip t = "" then .error "El texto generado está vacío" else .ok t

/-- The text held by the first content part of the first candidate, when every
piece on that path is present. -/
def firstPartText (r : Option GeminiResponse) : Option String := do
  let resp ← r
  let c ← resp.candidates.head?
  let content ← c.content
  let p ← content.parts.head?
  p.text

/-- A response is well formed when the first-candidate/first-part path is fully
present and the text it holds is non-empty after stripping. -/
def responseWellFormed (r : Option GeminiResponse) : Bool :=
  match firstPartText r with
  | some t => !(pyStrip t = "")
  | none => false

/-! ## Prompt templates (`gemini_service.py`) -/

/-- `_create_explanation_prompt`. -/
def createExplanationPrompt (question_text : String) : String :=
  "Explica de forma clara y concisa (máximo 100 palabras) la respuesta a la siguiente pregunta de cultura general, como si fueras un profesor. Usa formato Markdown:\n\nPregunta: " ++ question_text

/-- `_create_congratulations_prompt`. -/
def congratulationsPrompt : String :=
  "Genera una breve felicitación en formato Markdown para un estudiante que respondió correctamente todas las preguntas de un quiz de cultura general. Máximo 100 palabras. Incluye una motivación para seguir aprendiendo."

/-- Fixed text of `_create_feedback_prompt` before the numbered question list. -/
def feedbackHeader : String :=
  "Eres un experto educador creando una **separata informativa** en formato Markdown para ayudar a un estudiante a repasar conceptos de cultura general.\n\n**IMPORTANTE**: Esta separata será leída antes de que el estudiante vuelva a intentar el quiz, por lo que NO debes incluir de manera explícita o llamativa las respuestas, pero estas sí deben estar sutilmente incluidas en la separata generada.\n\n**Preguntas que el estudiante respondió incorrectamente:**\n"

/-- Fixed text of `_create_feedback_prompt` after the numbered question list. -/
def feedbackFooter : String :=
  "\n\n**Instrucciones para la separata:**\n1. Crea un documento educativo tipo boletín informativo\n2. Aborda los TEMAS y CONCEPTOS relacionados con las preguntas incorrectas\n3. NO reveles las respuestas correctas de manera explícita o llamativa, pero estas sí deben estar sutilmente incluidas en el texto generado.\n4. Proporciona contexto histórico, geográfico o cultural relevante\n5. Incluye datos curiosos o información complementaria\n6. Usa formato Markdown con títulos, subtítulos y listas\n7. Máximo 500 palabras\n8. Estilo: informativo, educativo y atractivo\n9. El objetivo es que el usuario aprenda los conceptos para responder mejor en un segundo intento\n\nGenera la separata educativa ahora:"

/-- One record of `_get_incorrect_questions`'s output:
the dict holding the question text and its options. -/
structure IncorrectQ where
  question : String
  options : List String
deriving Repr, DecidableEq

/-- The numbered lines `f"{i}. {incorrect_q['question']}\n"` of the feedback
prompt loop, starting at `i`. -/
def numberedLines : List IncorrectQ → Nat → String
  | [], _ => ""
  | q :: rest, i => toString i ++ ". " ++ q.question ++ "\n" ++ numberedLines rest (i + 1)

/-- `_create_feedback_prompt`: header, `enumerate(incorrect_questions, 1)`
numbered list, footer. -/
def createFeedbackPrompt (incorrect_questions : List IncorrectQ) : String :=
  feedbackHeader ++ numberedLines incorrect_questions 1 ++ feedbackFooter

/-! ## Feedback computation (`gemini_service.py`) -/

/-- `_validate_feedback_input`: the three checks in source order; an error is
the raised `GeminiException`'s message. -/
def validateFeedbackInput (questions : List Question) (u : UserAttempt) : Except String Unit :=
  if questions.isEmpty then
    .error "La lista de preguntas no puede estar vacía"
  else if (questions.length : Int) ≠ u.total_questions then
    .error "El número de preguntas no coincide con total_questions"
  else if u.answers.length ≠ questions.length then
    .error "El número de respuestas no coincide con el número de preguntas"
  else .ok ()

/-- Loop body of `_get_incorrect_questions`: iterate `enumerate(questions)`
from index `i`, reading `user_attempt.answers[i]`; `none` models the
`IndexError` Python raises when that access is out of bounds. -/
def getIncorrectGo (answers : List Int) : List Question → Nat → Option (List IncorrectQ)
  | [], _ => some []
  | q :: qs, i =>
    match answers[i]? with
    | none => none
    | some a =>
      match getIncorrectGo answers qs (i + 1) with
      | none => none
      | some rest =>
        some (if a ≠ q.correct_answer then ⟨q.question, q.options⟩ :: rest else rest)

/-- `_get_incorrect_questions`. -/
def getIncorrectQuestions (questions : List Question) (answers : List Int) :
    Option (List IncorrectQ) :=
  getIncorrectGo answers questions 0

/-- Specification-side characterisation of the diff: the positionally paired
(question, answer) list, filtered to the wrong answers, projected to the
question dict — in the original question order. -/
def incorrectSpec (l : List (Question × Int)) : List IncorrectQ :=
  (l.filter (fun p => p.2 ≠ p.1.correct_answer)).map (fun p => ⟨p.1.question, p.1.options⟩)

/-- Lines 103–109 of `generate_feedback`: the prompt chosen for the attempt
(`none` models the `IndexError` of the underlying diff). -/
def feedbackPromptOf (questions : List Question) (u : UserAttempt) : Option String :=
  (getIncorrectQuestions questions u.answers).map
    (fun inc => if inc.isEmpty then congratulationsPrompt else createFeedbackPrompt inc)

/-! ## Gemini service calls -/

/-- Outcome of the external `generate_content` call: a structured response for
the submitted prompt, or one of the error classes of the provider SDK
(`errors.ClientError`, `errors.ServerError`, anything else). -/
inductive GenCall where
  | success (respond : String → Option GeminiResponse)
  | clientError (m : String)
  | serverError (m : String)
  | otherError (m : String)

/-- An exception propagating out of the `try` body of a Gemini service method:
a domain `GeminiException`, a provider client/server error, or any other
exception. -/
inductive GeminiRaise where
  | gemini (m : String)
  | client (m : String)
  | server (m : String)
  | other (m : String)
deriving Repr, DecidableEq

/-- The `except` clauses shared by `generate_explanation` and
`generate_feedback`, in source order: `errors.ClientError` → 400,
`errors.ServerError` → 502, catch-all `Exception` (including the service's own
`GeminiException`) → 500. -/
def handleGeminiError : GeminiRaise → HTTPExc
  | .client m => createHttpException 400 ("Error del cliente: " ++ m)
  | .server m => createHttpException 502 ("Error del servidor Gemini: " ++ m)
  | .gemini m => createHttpException 500 ("Error interno: " ++ m)
  | .other m => createHttpException 500 ("Error interno: " ++ m)

/-- `try` body of `generate_explanation`: blank-text check, prompt build,
external call, text extraction. -/
def generateExplanationBody (question_text : String) (call : GenCall) :
    Except GeminiRaise String :=
  if pyStrip question_text = "" then
    .error (.gemini "El texto de la pregunta no puede estar vacío")
  else
    match call with
    | .success respond =>
      match extractTextFromResponse (respond (createExplanationPrompt question_text)) with
      | .ok t => .ok t
      | .error m => .error (.gemini m)
    | .clientError m => .error (.client m)
    | .serverError m => .error (.server m)
    | .otherError m => .error (.other m)

/-- `generate_explanation`: the `try` body with its `except` clauses applied. -/
def generateExplanation (question_text : String) (call : GenCall) :
    Except HTTPExc String :=
  (generateExplanationBody question_text call).mapError handleGeminiError

/-- `try` body of `generate_feedback`: input validation, incorrect-question
diff, prompt choice, external call, text extraction. -/
def generateFeedbackBody (questions : List Question) (u : UserAttempt) (call : GenCall) :
    Except GeminiRaise String :=
  match validateFeedbackInput questions u with
  | .error m => .error (.gemini m)
  | .ok _ =>
    match feedbackPromptOf questions u with
    | none => .error (.other "IndexError: list index out of range")
    | some prompt =>
      match call with
      | .success respond =>
        match extractTextFromResponse (respond prompt) with
        | .ok t => .ok t
        | .error m => .error (.gemini m)
      | .clientError m => .error (.client m)
      | .serverError m => .error (.server m)
      | .otherError m => .error (.other m)

/-- `generate_feedback`: the `try` body with its `except` clauses applied. -/
def generateFeedback (questions : List Question) (u : UserAttempt) (call : GenCall) :
    Except HTTPExc String :=
  (generateFeedbackBody questions u call).mapError handleGeminiError

/-! ## Firestore service (`firestore_service.py`) -/

/-- The data of a stored question document, as far as the service inspects it:
the optional `subject` field (absent field ↦ `none`) and the remaining payload,
kept abstract as a string. -/
structure DocData where
  subject : Option String
  payload : String
deriving Repr, DecidableEq

/-- A document snapshot produced by a collection stream: its existence flag,
its document id, and its data (`to_dict()`). -/
structure SnapshotDoc where
  docExists : Bool
  id : String
  data : DocData
deriving Repr, DecidableEq

/-- A result entry of `get_random_questions`: the document data with the
document id added under the `id` key (`question_data['id'] = doc.id`). -/
structure QDoc where
  id : String
  data : DocData
deriving Repr, DecidableEq

/-- Python truthiness of the optional `subject` argument
(`if subject:` — `None` and the empty string are falsy). -/
def subjectTruthy : Option String → Bool
  | none => false
  | some s => !(s = "")

/-- Modelled from the spec: the store's "unfiltered or equality-filtered scan"
of the questions collection.  The filter `.where("subject", "==", subject)` is
applied only when the argument is truthy, as in the source. -/
def matchingDocs (subject : Option String) (docs : List SnapshotDoc) : List SnapshotDoc :=
  if subjectTruthy subject then
    docs.filter (fun d => d.data.subject == subject)
  else docs

/-- The `all_questions` accumulation loop of `get_random_questions`: existing
documents of the (possibly filtered) stream, with the id added to the data. -/
def allQuestionsOf (subject : Option String) (docs : List SnapshotDoc) : List QDoc :=
  ((matchingDocs subject docs).filter (fun d => d.docExists)).map (fun d => ⟨d.id, d.data⟩)

/-- `random.sample(l, k)` yields the elements at `k` distinct positions; the
chosen positions are the explicit parameter `sel` here, so properties are
proved for every admissible draw. -/
def sampleByIdx {α : Type} (l : List α) (sel : List Nat) : List α :=
  sel.filterMap (fun i => l[i]?)

/-- `sel` is an admissible draw of `random.sample(l, k)`: `k` pairwise distinct
in-bounds positions. -/
def admissibleDraw {α : Type} (l : List α) (sel : List Nat) (k : Nat) : Prop :=
  sel.Nodup ∧ (∀ i ∈ sel, i < l.length) ∧ sel.length = k

/-- An exception propagating out of the `try` body of a Firestore service
method: an `HTTPException` the body itself raised, a `GoogleCloudError`, or
any other exception. -/
inductive FsRaise where
  | httpExc (e : HTTPExc)
  | cloud (m : String)
  | other (m : String)
deriving Repr, DecidableEq

/-- The `except` clauses shared by the Firestore service methods, in source
order: `GoogleCloudError` → 500, catch-all `Exception` (which also captures an
`HTTPException` raised inside the `try`, re-raising it as a fresh 500) → 500.
Python's `f"Error interno: {e}"` rendering of a caught `HTTPException` is
approximated by its status code and message. -/
def handleFirestoreError : FsRaise → HTTPExc
  | .cloud m => createHttpException 500 ("Error de base de datos: " ++ m)
  | .httpExc e =>
    createHttpException 500 ("Error interno: " ++ toString e.status_code ++ ": " ++ e.message)
  | .other m => createHttpException 500 ("Error interno: " ++ m)

/-- Outcome of the external point read `doc_ref.get()` in
`get_question_by_id`: a snapshot that exists, one that does not, or a raised
`GoogleCloudError` / other exception. -/
inductive FetchResult where
  | found (d : DocData)
  | missing
  | cloudError (m : String)
  | otherError (m : String)
deriving Repr, DecidableEq

/-- `try` body of `get_question_by_id`: raises 404 when the document does not
exist, returns its data otherwise. -/
def getQuestionByIdBody : FetchResult → Except FsRaise DocData
  | .found d => .ok d
  | .missing => .error (.httpExc (createHttpException 404 "Pregunta no encontrada"))
  | .cloudError m => .error (.cloud m)
  | .otherError m => .error (.other m)

/-- `get_question_by_id`: the `try` body with its `except` clauses applied. -/
def getQuestionById (r : FetchResult) : Except HTTPExc DocData :=
  (getQuestionByIdBody r).mapError handleFirestoreError

/-- Outcome of streaming the (possibly filtered) questions collection: the
listed snapshots, or a raised `GoogleCloudError` / other exception. -/
inductive StoreResult where
  | ok (docs : List SnapshotDoc)
  | cloudError (m : String)
  | otherError (m : String)

/-- `try` body of `get_random_questions`: stream the collection, keep existing
docs with ids attached, return `[]` when none were found, otherwise sample
`min(count, len(all_questions))` of them at the drawn positions `sel`. -/
def getRandomQuestionsBody (count : Nat) (subject : Option String) (res : StoreResult)
    (sel : List Nat) : Except FsRaise (List QDoc) :=
  match res with
  | .ok docs =>
    let all := allQuestionsOf subject docs
    if all.isEmpty then .ok []
    else .ok (sampleByIdx all sel)
  | .cloudError m => .error (.cloud m)
  | .otherError m => .error (.other m)

/-- `get_random_questions`: the `try` body with its `except` clauses applied. -/
def getRandomQuestions (count : Nat) (subject : Option String) (res : StoreResult)
    (sel : List Nat) : Except HTTPExc (List QDoc) :=
  (getRandomQuestionsBody count subject res sel).mapError handleFirestoreError

/-- Loop body of `get_available_subjects`: an existing document contributes
its `subject` value when the field is present and truthy
(`'subject' in data and data['subject']`). -/
def subjectOfDoc (d : SnapshotDoc) : Option String :=
  if d.docExists then
    match d.data.subject with
    | some s => if s = "" then none else some s
    | none => none
  else none

/-- `try` body of `get_available_subjects`: collect the truthy `subject`
values of existing documents into a set and return them sorted.  Python's
`sorted(list(set))` is modelled as deduplication followed by an ascending
sort. -/
def getAvailableSubjectsBody (docs : List SnapshotDoc) : List String :=
  ((docs.filterMap subjectOfDoc).dedup).insertionSort (· ≤ ·)

/-- `get_available_subjects` on a successful stream. -/
def getAvailableSubjects (docs : List SnapshotDoc) : Except HTTPExc (List String) :=
  .ok (getAvailableSubjectsBody docs)

/-- Modelled from the spec: the store's count aggregation
("count aggregation with manual-count fallback") returns the number of
documents matching the query. -/
def countAggregation (subject : Option String) (docs : List SnapshotDoc) : Nat :=
  (matchingDocs subject docs).length

/-- The manual fallback of `get_questions_count`: materialise the (possibly
filtered) stream as a list and take its length. -/
def manualCountFallback (subject : Option String) (docs : List SnapshotDoc) : Nat :=
  (matchingDocs subject docs).length

/-- `get_questions_count`: the aggregation path when the client library
supports it (`aggAvailable`), the manual-count fallback on `AttributeError`. -/
def getQuestionsCount (aggAvailable : Bool) (subject : Option String)
    (docs : List SnapshotDoc) : Nat :=
  if aggAvailable then countAggregation subject docs else manualCountFallback subject docs

/-! ## Helper lemmas -/

lemma subjectOfDoc_eq_some {d : SnapshotDoc} {s : String} :
    subjectOfDoc d = some s ↔ d.docExists = true ∧ d.data.subject = some s ∧ s ≠ "" := by
  rcases d with ⟨ex, did, subj, payload⟩
  unfold subjectOfDoc
  cases ex <;> rcases subj with _ | s'
  · simp
  · simp
  · simp
  · by_cases h : s' = ""
    · subst h
      simp
      exact fun h' => h'.symm
    · simp [h]
      rintro rfl
      exact h

/-! ## Claim theorems -/

/-- A `Question` accepted by the pydantic validation of `schemas.py` whose
correct-answer index is not an index of its options list: the schema checks
only `ge=0` and `min_items=2`. -/
def qUnbounded : Question := ⟨1, "pregunta", ["a", "b"], 5, none⟩

/-- **C3 (counterexample)**: request validation accepts a `Question` whose
`correct_answer` is not an index of its options list, refuting
`0 ≤ correct_answer < length options` for every accepted value. -/
theorem question_correct_answer_unbounded :
    qUnbounded.isValid = true ∧
    ¬(qUnbounded.correct_answer < (qUnbounded.options.length : Int)) := by
  decide

/-- **C3 (amended)**: for every `Question` accepted by request validation, the
correct-answer field is non-negative and the options list has at least 2
elements; no upper bound on `correct_answer` is enforced. -/
theorem question_validation_spec (q : Question) (h : q.isValid = true) :
    0 ≤ q.correct_answer ∧ 2 ≤ q.options.length := by
  simp only [Question.isValid, Bool.and_eq_true, decide_eq_true_eq] at h
  exact ⟨h.2, h.1⟩

/-- Witness for C3's amended theorem at a concrete accepted question. -/
theorem question_validation_spec_witness :
    0 ≤ (Question.mk 1 "q" ["a", "b"] 1 none).correct_answer ∧
    2 ≤ (Question.mk 1 "q" ["a", "b"] 1 none).options.length :=
  question_validation_spec (Question.mk 1 "q" ["a", "b"] 1 none) (by decide)

/-- **C6**: `get_available_subjects` returns a duplicate-free ascending list
containing exactly the subject values occurring non-empty in an existing
stored document. -/
theorem getAvailableSubjects_spec (docs : List SnapshotDoc) :
    ∃ r, getAvailableSubjects docs = .ok r ∧
      List.Sorted (· ≤ ·) r ∧ r.Nodup ∧
      (∀ s : String, s ∈ r ↔
        ∃ d ∈ docs, d.docExists = true ∧ d.data.subject = some s ∧ s ≠ "") := by
  refine ⟨getAvailableSubjectsBody docs, rfl, ?_, ?_, ?_⟩
  · exact List.sorted_insertionSort _ _
  · exact ((List.perm_insertionSort _ _).nodup_iff).2 (List.nodup_dedup _)
  · intro s
    simp [getAvailableSubjectsBody, (List.perm_insertionSort _ _).mem_iff,
      List.mem_dedup, List.mem_filterMap, subjectOfDoc_eq_some]

/-- **C7**: the aggregation-query path and the manual-count fallback of
`get_questions_count` agree: both return the number of stored documents
matching the optional subject filter. -/
theorem getQuestionsCount_paths_agree (subject : Option String) (docs : List SnapshotDoc) :
    countAggregation subject docs = manualCountFallback subject docs ∧
    (∀ aggAvailable : Bool,
      getQuestionsCount aggAvailable subject docs = (matchingDocs subject docs).length) := by
  refine ⟨rfl, ?_⟩
  intro b
  cases b <;> rfl

/-- **C10**: for a missing document id, `get_question_by_id` raises 404 inside
its `try` body, but its own catch-all converts it, so the exception reaching
the caller carries status 500 and no question data is ever returned. -/
theorem getQuestionById_missing_500 :
    getQuestionByIdBody .missing =
      .error (.httpExc (createHttpException 404 "Pregunta no encontrada")) ∧
    (∃ e, getQuestionById .missing = .error e ∧ e.status_code = 500) ∧
    (∀ d, getQuestionById .missing ≠ .ok d) := by
  refine ⟨rfl, ⟨_, rfl, rfl⟩, ?_⟩
  intro d h
  simp [getQuestionById, getQuestionByIdBody, Except.mapError, handleFirestoreError] at h

/-- Unrolling of the `_get_incorrect_questions` loop: under in-bounds access,
the loop from index `i` computes the filtered positional diff of the remaining
questions against the remaining answers. -/
lemma getIncorrectGo_eq (answers : List Int) :
    ∀ (qs : List Question) (i : Nat), i + qs.length ≤ answers.length →
      getIncorrectGo answers qs i = some (incorrectSpec (qs.zip (answers.drop i)))
  | [], i, _ => by simp [getIncorrectGo, incorrectSpec]
  | q :: qs, i, h => by
    have hi : i < answers.length := by simp at h; omega
    have ha : answers[i]? = some answers[i] := List.getElem?_eq_getElem hi
    have hih := getIncorrectGo_eq answers qs (i + 1) (by simp at h ⊢; omega)
    have hdrop : answers.drop i = answers[i] :: answers.drop (i + 1) :=
      List.drop_eq_getElem_cons hi
    simp only [getIncorrectGo, ha, hih]
    rw [hdrop]
    simp only [incorrectSpec, List.zip_cons_cons, List.filter_cons, List.map_cons]
    by_cases hqa : answers[i] = q.correct_answer
    · simp [hqa]
    · simp [hqa]

/-- **C9**: when the answers list has the same length as the questions list
(the precondition `_validate_feedback_input` establishes), every
`user_attempt.answers[i]` access of `_get_incorrect_questions` is in bounds
and the diff returns a result. -/
theorem getIncorrectQuestions_total (questions : List Question) (answers : List Int)
    (h : answers.length = questions.length) :
    ∃ inc, getIncorrectQuestions questions answers = some inc := by
  have h0 := getIncorrectGo_eq answers questions 0 (by omega)
  unfold getIncorrectQuestions
  exact ⟨_, h0⟩

/-- Witness for C9 at a concrete aligned question/answer pair. -/
theorem getIncorrectQuestions_total_witness :
    ∃ inc, getIncorrectQuestions [Question.mk 1 "q" ["a", "b"] 1 none] [0] = some inc :=
  getIncorrectQuestions_total [Question.mk 1 "q" ["a", "b"] 1 none] [0] rfl

/-- **C5**: `_extract_text_from_response` returns the text of the first content
part of the first candidate exactly when the whole path is present and the
text is non-empty after stripping, and raises a `GeminiException` in every
other case. -/
theorem extractText_spec (r : Option GeminiResponse) :
    (responseWellFormed r = true →
      ∃ t, firstPartText r = some t ∧ extractTextFromResponse r = .ok t) ∧
    (responseWellFormed r = false → ∃ m, extractTextFromResponse r = .error m) ∧
    (∀ t, extractTextFromResponse r = .ok t →
      firstPartText r = some t ∧ responseWellFormed r = true) := by
  rcases r with _ | ⟨cands⟩
  · simp [responseWellFormed, firstPartText, extractTextFromResponse]
  · rcases cands with _ | ⟨⟨content⟩, cs⟩
    · simp [responseWellFormed, firstPartText, extractTextFromResponse]
    · rcases content with _ | ⟨parts⟩
      · simp [responseWellFormed, firstPartText, extractTextFromResponse]
      · rcases parts with _ | ⟨⟨txt⟩, ps⟩
        · simp [responseWellFormed, firstPartText, extractTextFromResponse]
        · rcases txt with _ | t
          · simp [responseWellFormed, firstPartText, extractTextFromResponse]
          · by_cases h : pyStrip t = "" <;>
              simp [responseWellFormed, firstPartText, extractTextFromResponse, h]

/-- Witness for C5 at a concrete well-formed response. -/
theorem extractText_spec_witness :
    ∃ t, firstPartText (some ⟨[⟨some ⟨[⟨some "hola"⟩]⟩⟩]⟩) = some t ∧
      extractTextFromResponse (some ⟨[⟨some ⟨[⟨some "hola"⟩]⟩⟩]⟩) = .ok t :=
  (extractText_spec (some ⟨[⟨some ⟨[⟨some "hola"⟩]⟩⟩]⟩)).1 (by decide)

set_option maxRecDepth 8192

/-- The review prompt is never the congratulations prompt: its fixed header
alone is longer than the whole congratulations text. -/
lemma createFeedbackPrompt_ne_congrats (inc : List IncorrectQ) :
    createFeedbackPrompt inc ≠ congratulationsPrompt := by
  intro hEq
  have hc : congratulationsPrompt.length < feedbackHeader.length := by decide
  have hlen := congrArg String.length hEq
  rw [createFeedbackPrompt, String.length_append, String.length_append] at hlen
  omega

/-- The diff is empty exactly when every paired answer equals the correct
index. -/
lemma incorrectSpec_eq_nil_iff (l : List (Question × Int)) :
    incorrectSpec l = [] ↔ ∀ p ∈ l, p.2 = p.1.correct_answer := by
  unfold incorrectSpec
  rw [List.map_eq_nil_iff, List.filter_eq_nil_iff]
  simp

/-- The three checks of `_validate_feedback_input` passed. -/
lemma validateFeedbackInput_ok {questions : List Question} {u : UserAttempt}
    (h : validateFeedbackInput questions u = .ok ()) :
    questions ≠ [] ∧ (questions.length : Int) = u.total_questions ∧
      u.answers.length = questions.length := by
  unfold validateFeedbackInput at h
  split_ifs at h with h1 h2 h3
  exact ⟨by simpa [List.isEmpty_iff] using h1, not_ne_iff.mp h2, not_ne_iff.mp h3⟩

/-- **C4**: for length-consistent input, `generate_feedback` picks the
congratulations prompt iff every selected answer equals the correct index;
otherwise it picks the review prompt built from exactly the incorrectly
answered questions in their original order. -/
theorem feedback_prompt_choice_spec (questions : List Question) (u : UserAttempt)
    (h : validateFeedbackInput questions u = .ok ()) :
    ∃ inc, getIncorrectQuestions questions u.answers = some inc ∧
      inc = incorrectSpec (questions.zip u.answers) ∧
      (feedbackPromptOf questions u = some congratulationsPrompt ↔
        ∀ p ∈ questions.zip u.answers, p.2 = p.1.correct_answer) ∧
      (inc ≠ [] → feedbackPromptOf questions u = some (createFeedbackPrompt inc)) := by
  obtain ⟨hne, htot, hlen⟩ := validateFeedbackInput_ok h
  have h0 := getIncorrectGo_eq u.answers questions 0 (by omega)
  rw [List.drop_zero] at h0
  have hq : getIncorrectQuestions questions u.answers =
      some (incorrectSpec (questions.zip u.answers)) := h0
  have hfp : feedbackPromptOf questions u =
      some (if (incorrectSpec (questions.zip u.answers)).isEmpty then congratulationsPrompt
        else createFeedbackPrompt (incorrectSpec (questions.zip u.answers))) := by
    unfold feedbackPromptOf
    rw [hq]
    rfl
  refine ⟨_, hq, rfl, ?_, ?_⟩
  · rw [hfp]
    constructor
    · intro hp
      by_cases he : (incorrectSpec (questions.zip u.answers)).isEmpty = true
      · exact (incorrectSpec_eq_nil_iff _).1 (List.isEmpty_iff.mp he)
      · exfalso
        rw [if_neg he] at hp
        exact createFeedbackPrompt_ne_congrats _ (Option.some.inj hp)
    · intro hall
      have hnil : incorrectSpec (questions.zip u.answers) = [] :=
        (incorrectSpec_eq_nil_iff _).2 hall
      rw [hnil]
      simp
  · intro hne2
    have he : ¬((incorrectSpec (questions.zip u.answers)).isEmpty = true) := by
      simpa [List.isEmpty_iff] using hne2
    rw [hfp, if_neg he]

/-- Concrete questions for the C4 witness. -/
def wQ : List Question := [Question.mk 1 "q" ["a", "b"] 1 none]

/-- Concrete all-correct attempt for the C4 witness. -/
def wU : UserAttempt := ⟨1, 1, [1]⟩

/-- Witness for C4 at a concrete validated request. -/
theorem feedback_prompt_choice_spec_witness :
    ∃ inc, getIncorrectQuestions wQ wU.answers = some inc ∧
      inc = incorrectSpec (wQ.zip wU.answers) ∧
      (feedbackPromptOf wQ wU = some congratulationsPrompt ↔
        ∀ p ∈ wQ.zip wU.answers, p.2 = p.1.correct_answer) ∧
      (inc ≠ [] → feedbackPromptOf wQ wU = some (createFeedbackPrompt inc)) :=
  feedback_prompt_choice_spec wQ wU rfl

/-- A draw at in-bounds positions yields one element per position. -/
lemma sampleByIdx_length {α : Type} (l : List α) (sel : List Nat)
    (h : ∀ i ∈ sel, i < l.length) : (sampleByIdx l sel).length = sel.length := by
  induction sel with
  | nil => rfl
  | cons i is ih =>
    have hi : i < l.length := h i (by simp)
    have hsome : l[i]? = some l[i] := List.getElem?_eq_getElem hi
    have ih' := ih (fun j hj => h j (List.mem_cons_of_mem _ hj))
    simp only [sampleByIdx, List.filterMap_cons, hsome] at ih' ⊢
    simp [ih']

/-- Every drawn element comes from the population. -/
lemma sampleByIdx_subset {α : Type} (l : List α) (sel : List Nat) :
    ∀ x ∈ sampleByIdx l sel, x ∈ l := by
  intro x hx
  simp only [sampleByIdx, List.mem_filterMap] at hx
  obtain ⟨i, _, hi⟩ := hx
  exact List.getElem?_mem hi

/-- Distinct in-bounds positions of a duplicate-free population yield
pairwise-distinct elements. -/
lemma sampleByIdx_nodup {α : Type} (l : List α) (sel : List Nat)
    (hl : l.Nodup) (hsel : sel.Nodup) : (sampleByIdx l sel).Nodup := by
  apply List.Nodup.filterMap ?_ hsel
  intro i j x hxi hxj
  rw [Option.mem_def] at hxi hxj
  have hi : i < l.length := (List.getElem?_eq_some.mp hxi).1
  exact List.getElem?_inj hi hl (hxi.trans hxj.symm)

/-- **C2**: on a successful stream, `get_random_questions` returns exactly
`min(count, N)` pairwise-distinct questions drawn from the bank matching the
filter (`N` its size), and the empty list when the bank is empty.  The
distinct-ids hypothesis reflects that document ids are unique within a
collection; the draw hypothesis is the contract of
`random.sample(all_questions, actual_count)`. -/
theorem getRandomQuestions_spec (count : Nat) (subject : Option String)
    (docs : List SnapshotDoc) (sel : List Nat)
    (hids : ((allQuestionsOf subject docs).map QDoc.id).Nodup)
    (hsel : admissibleDraw (allQuestionsOf subject docs) sel
      (min count (allQuestionsOf subject docs).length)) :
    ∃ r, getRandomQuestions count subject (.ok docs) sel = .ok r ∧
      r.length = min count (allQuestionsOf subject docs).length ∧
      r.Nodup ∧ (∀ q ∈ r, q ∈ allQuestionsOf subject docs) ∧
      ((allQuestionsOf subject docs).length = 0 → r = []) := by
  obtain ⟨hnd, hb, hlen⟩ := hsel
  have hlnd : (allQuestionsOf subject docs).Nodup := hids.of_map
  by_cases he : (allQuestionsOf subject docs).isEmpty = true
  · have hnil : allQuestionsOf subject docs = [] := List.isEmpty_iff.mp he
    refine ⟨[], ?_, ?_, ?_, ?_, ?_⟩
    · unfold getRandomQuestions getRandomQuestionsBody
      simp [he, Except.mapError]
    · simp [hnil]
    · simp
    · simp
    · intro _
      rfl
  · refine ⟨sampleByIdx (allQuestionsOf subject docs) sel, ?_, ?_, ?_, ?_, ?_⟩
    · unfold getRandomQuestions getRandomQuestionsBody
      simp [he, Except.mapError]
    · rw [sampleByIdx_length _ _ hb, hlen]
    · exact sampleByIdx_nodup _ _ hlnd hnd
    · exact sampleByIdx_subset _ _
    · intro h0
      exact absurd (List.isEmpty_iff.mpr (List.length_eq_zero.mp h0)) he

/-- Concrete two-document bank for the C2 witness. -/
def wDocs : List SnapshotDoc := [⟨true, "a", ⟨none, "p"⟩⟩, ⟨true, "b", ⟨none, "q"⟩⟩]

/-- Witness for C2: one question drawn from a two-document bank. -/
theorem getRandomQuestions_spec_witness :
    ∃ r, getRandomQuestions 1 none (.ok wDocs) [1] = .ok r ∧
      r.length = min 1 (allQuestionsOf none wDocs).length ∧
      r.Nodup ∧ (∀ q ∈ r, q ∈ allQuestionsOf none wDocs) ∧
      ((allQuestionsOf none wDocs).length = 0 → r = []) :=
  getRandomQuestions_spec 1 none wDocs [1] (by decide) ⟨by decide, by decide, by decide⟩

/-- Concrete question list for the C8 witness. -/
def q8 : List Question := [Question.mk 1 "q8" ["a", "b"] 0 none]

/-- Concrete matching attempt for the C8 witness. -/
def u8 : UserAttempt := ⟨0, 1, [0]⟩

/-- **C8**: errors raised by the external collaborators are converted to HTTP
error responses and nothing else escapes: generative-API client errors → 400,
generative-API server errors → 502, document-store errors → 500. -/
theorem external_error_conversion (m question_text : String)
    (questions : List Question) (u : UserAttempt)
    (count : Nat) (subject : Option String) (sel : List Nat)
    (hq : pyStrip question_text ≠ "")
    (hv : validateFeedbackInput questions u = .ok ()) :
    statusOf (generateExplanation question_text (.clientError m)) = some 400 ∧
    statusOf (generateExplanation question_text (.serverError m)) = some 502 ∧
    statusOf (generateFeedback questions u (.clientError m)) = some 400 ∧
    statusOf (generateFeedback questions u (.serverError m)) = some 502 ∧
    statusOf (getQuestionById (.cloudError m)) = some 500 ∧
    statusOf (getRandomQuestions count subject (.cloudError m) sel) = some 500 := by
  obtain ⟨hne, htot, hlen⟩ := validateFeedbackInput_ok hv
  have h0 := getIncorrectGo_eq u.answers questions 0 (by omega)
  rw [List.drop_zero] at h0
  have hfp : ∃ p, feedbackPromptOf questions u = some p := by
    unfold feedbackPromptOf getIncorrectQuestions
    rw [h0]
    exact ⟨_, rfl⟩
  obtain ⟨p, hp⟩ := hfp
  refine ⟨?_, ?_, ?_, ?_, rfl, rfl⟩
  · unfold generateExplanation generateExplanationBody
    rw [if_neg hq]
    rfl
  · unfold generateExplanation generateExplanationBody
    rw [if_neg hq]
    rfl
  · unfold generateFeedback generateFeedbackBody
    rw [hv, hp]
    rfl
  · unfold generateFeedback generateFeedbackBody
    rw [hv, hp]
    rfl

/-- Witness for C8 at concrete inputs. -/
theorem external_error_conversion_witness :
    statusOf (generateExplanation "hola" (.clientError "e")) = some 400 ∧
    statusOf (generateExplanation "hola" (.serverError "e")) = some 502 ∧
    statusOf (generateFeedback q8 u8 (.clientError "e")) = some 400 ∧
    statusOf (generateFeedback q8 u8 (.serverError "e")) = some 502 ∧
    statusOf (getQuestionById (.cloudError "e")) = some 500 ∧
    statusOf (getRandomQuestions 1 none (.cloudError "e") []) = some 500 :=
  external_error_conversion "e" "hola" q8 u8 1 none [] (by decide) rfl

/-- A feedback request whose answers list (length 2) is longer than its
question list (length 1) but consistent with `total_questions`. -/
def cxQuestion : Question := ⟨1, "pregunta uno", ["a", "b"], 1, none⟩

/-- The mismatched attempt of the C1 counterexample. -/
def cxAttempt : UserAttempt := ⟨0, 1, [0, 1]⟩

/-- **C1 (counterexample)**: at a feedback request whose answer-list length
differs from its question-list length, the surfaced HTTP error carries status
500, which is not a client (4xx) error. -/
theorem feedback_length_mismatch_not_4xx :
    statusOf (generateFeedback [cxQuestion] cxAttempt (GenCall.success fun _ => none)) =
      some 500 ∧
    ¬(400 ≤ 500 ∧ 500 ≤ 499) :=
  ⟨rfl, by decide⟩

/-- **C1 (amended)**: a mismatched feedback request and a whitespace-only
explanation request each raise a domain `GeminiException`, but the service's
own catch-all `except Exception` converts it, so the surfaced HTTP error
carries status code 500 (a server error), not a 4xx client error. -/
theorem validation_errors_surface_as_500 (questions : List Question) (u : UserAttempt)
    (call : GenCall) (question_text : String)
    (hmismatch : u.answers.length ≠ questions.length)
    (hblank : pyStrip question_text = "") :
    (∃ e, generateFeedback questions u call = .error e ∧ e.status_code = 500) ∧
    (∃ e, generateExplanation question_text call = .error e ∧ e.status_code = 500) := by
  constructor
  · have hv : ∃ msg, validateFeedbackInput questions u = .error msg := by
      unfold validateFeedbackInput
      by_cases h1 : questions.isEmpty = true
      · rw [if_pos h1]
        exact ⟨_, rfl⟩
      · rw [if_neg h1]
        by_cases h2 : (questions.length : Int) ≠ u.total_questions
        · rw [if_pos h2]
          exact ⟨_, rfl⟩
        · rw [if_neg h2, if_pos hmismatch]
          exact ⟨_, rfl⟩
    obtain ⟨msg, hv⟩ := hv
    refine ⟨createHttpException 500 ("Error interno: " ++ msg), ?_, rfl⟩
    unfold generateFeedback generateFeedbackBody
    rw [hv]
    rfl
  · refine ⟨createHttpException 500
      ("Error interno: " ++ "El texto de la pregunta no puede estar vacío"), ?_, rfl⟩
    unfold generateExplanation generateExplanationBody
    rw [if_pos hblank]
    rfl

/-- Witness for C1's amended theorem at the concrete mismatched request and a
whitespace-only explanation request. -/
theorem validation_errors_surface_as_500_witness :
    (∃ e, generateFeedback [cxQuestion] cxAttempt (GenCall.success fun _ => none) =
        .error e ∧ e.status_code = 500) ∧
    (∃ e, generateExplanation "   " (GenCall.success fun _ => none) =
        .error e ∧ e.status_code = 500) :=
  validation_errors_surface_as_500 [cxQuestion] cxAttempt (GenCall.success fun _ => none)
    "   " (by decide) (by decide)
